import Mathlib

/-!
Verification of the Anaplan orchestration engine (`anaplan_api_wrapper.py`)
against its natural-language specification.

The Python source is shallowly embedded: each network-facing operation is a
pure Lean function over an explicit oracle describing the responses the
HTTP transport would deliver, and the observable behaviour (requests issued,
chunks transmitted, sleeps performed, errors raised) is returned explicitly.
-/

namespace Anaplan

/-! ## Task polling: `monitor_task` (source lines 345-389)

A status response either fails at the transport level (the `requests`
exception re-raised by the `except` clause after the session's own retries)
or delivers a task object carrying `taskState`, the optional `result`
payload and the optional `currentStep` message.  `none` for `result`
models the defaulted empty dict `{}`; `none` for `currentStep` models the
defaulted string the source supplies. -/

structure TaskData where
  taskState : String
  result : Option String
  currentStep : Option String
deriving DecidableEq, Repr

inductive PollResponse where
  | ok (task : TaskData)
  | failure
deriving DecidableEq, Repr

/-- The status dict `monitor_task` returns on a terminal state:
`{"status": task_state, "details": task.get("result", {}),
  "message": task.get("currentStep", "Task Completed Successfully")}`. -/
structure TaskStatus where
  status : String
  details : Option String
  message : String
deriving DecidableEq, Repr

def pollStatus (t : TaskData) : TaskStatus :=
  { status := t.taskState
    details := t.result
    message := t.currentStep.getD "Task Completed Successfully" }

/-- The terminal-state list of line 377: `["COMPLETE", "FAILED", "CANCELLED"]`. -/
def terminalStates : List String := ["COMPLETE", "FAILED", "CANCELLED"]

/-- Outcome of `monitor_task`: a returned terminal status dict, the re-raised
transport exception (the spec's synthetic ERROR state), or the raised
`TimeoutError` (the spec's synthetic TIMEOUT state). -/
inductive MonitorOutcome where
  | terminal (st : TaskStatus)
  | transportError
  | timeout
deriving DecidableEq, Repr

/-- A response that the loop body treats as non-terminal: a delivered task
object whose `taskState` is outside `terminalStates`. -/
def isNonTerminalOk : PollResponse → Bool
  | .ok t => decide (t.taskState ∉ terminalStates)
  | .failure => false

/-- One pass of the `for attempt in range(max_attempts)` loop of lines
370-386, with explicit fuel.  `respond i` is the response delivered to the
`i`-th status request.  Returns the outcome together with the number of
status requests issued and the total seconds slept. -/
def monitorFrom (respond : Nat → PollResponse) (interval : Nat) :
    Nat → Nat → MonitorOutcome × Nat × Nat
  | _, 0 => (.timeout, 0, 0)
  | attempt, fuel + 1 =>
    match respond attempt with
    | .failure => (.transportError, 1, 0)
    | .ok t =>
      if t.taskState ∈ terminalStates then
        (.terminal (pollStatus t), 1, 0)
      else
        let r := monitorFrom respond interval (attempt + 1) fuel
        (r.1, r.2.1 + 1, r.2.2 + interval)

/-- `monitor_task` (lines 345-389): poll up to `max_attempts` times, sleeping
`interval` after every non-terminal response, raising `TimeoutError` when the
attempts are exhausted. -/
def monitor_task (respond : Nat → PollResponse) (interval max_attempts : Nat) :
    MonitorOutcome × Nat × Nat :=
  monitorFrom respond interval 0 max_attempts

lemma monitorFrom_skip (respond : Nat → PollResponse) (interval : Nat) (j : Nat) :
    ∀ (a fuel : Nat), j ≤ fuel →
    (∀ i, i < j → isNonTerminalOk (respond (a + i)) = true) →
    monitorFrom respond interval a fuel =
      ((monitorFrom respond interval (a + j) (fuel - j)).1,
       (monitorFrom respond interval (a + j) (fuel - j)).2.1 + j,
       (monitorFrom respond interval (a + j) (fuel - j)).2.2 + j * interval) := by
  induction j with
  | zero => intro a fuel _ _; simp
  | succ j ih =>
    intro a fuel hj hnt
    obtain ⟨fuel', rfl⟩ : ∃ f, fuel = f + 1 :=
      ⟨fuel - 1, by omega⟩
    have h0 : isNonTerminalOk (respond a) = true := by
      have := hnt 0 (by omega); simpa using this
    cases hr : respond a with
    | failure => rw [hr] at h0; simp [isNonTerminalOk] at h0
    | ok t =>
      have hts : t.taskState ∉ terminalStates := by
        rw [hr] at h0
        exact of_decide_eq_true h0
      have step : monitorFrom respond interval a (fuel' + 1) =
          ((monitorFrom respond interval (a + 1) fuel').1,
           (monitorFrom respond interval (a + 1) fuel').2.1 + 1,
           (monitorFrom respond interval (a + 1) fuel').2.2 + interval) := by
        simp only [monitorFrom, hr]
        rw [if_neg hts]
      have hnt' : ∀ i, i < j → isNonTerminalOk (respond (a + 1 + i)) = true := by
        intro i hi
        have := hnt (i + 1) (by omega)
        simpa [Nat.add_assoc, Nat.add_comm 1 i] using this
      rw [step, ih (a + 1) fuel' (by omega) hnt']
      have hidx : a + 1 + j = a + (j + 1) := by omega
      have hfuel : fuel' - j = fuel' + 1 - (j + 1) := by omega
      rw [hidx, hfuel]
      simp only [Prod.mk.injEq]
      refine ⟨trivial, by omega, by ring⟩

lemma monitor_task_skip (respond : Nat → PollResponse) (interval : Nat)
    (j max_attempts : Nat) (hj : j ≤ max_attempts)
    (hnt : ∀ i, i < j → isNonTerminalOk (respond i) = true) :
    monitor_task respond interval max_attempts =
      ((monitorFrom respond interval j (max_attempts - j)).1,
       (monitorFrom respond interval j (max_attempts - j)).2.1 + j,
       (monitorFrom respond interval j (max_attempts - j)).2.2 + j * interval) := by
  have := monitorFrom_skip respond interval j 0 max_attempts hj
    (by intro i hi; simpa using hnt i hi)
  simpa [monitor_task] using this

/-- C3: if every one of `max_attempts` consecutive status responses is
non-terminal, `monitor_task` raises its timeout after exactly `max_attempts`
status requests, having slept `interval` after each of the `max_attempts`
non-terminal responses, for a total sleep of `max_attempts * interval`
(the final attempt also sleeps). -/
theorem C3_monitor_timeout (respond : Nat → PollResponse)
    (interval max_attempts : Nat)
    (hnt : ∀ i, i < max_attempts → isNonTerminalOk (respond i) = true) :
    monitor_task respond interval max_attempts =
      (.timeout, max_attempts, max_attempts * interval) := by
  have := monitor_task_skip respond interval max_attempts max_attempts le_rfl hnt
  simpa [monitorFrom] using this

/-- C3 witness: three consecutive RUNNING responses with interval 5 time out
after 3 requests and 15 seconds of sleep. -/
theorem C3_monitor_timeout_witness :
    monitor_task (fun _ => .ok ⟨"RUNNING", none, none⟩) 5 3 =
      (.timeout, 3, 3 * 5) :=
  C3_monitor_timeout (fun _ => .ok ⟨"RUNNING", none, none⟩) 5 3
    (fun _ _ => rfl)

/-- C4: if the first `j` responses are non-terminal and response `j` reports a
terminal state (COMPLETE, FAILED or CANCELLED), `monitor_task` returns that
state with its result details and message after exactly `j + 1` requests and
`j * interval` seconds of sleep — no sleep follows the terminal response; in
particular a first response of COMPLETE (`j = 0`) returns with zero sleeps. -/
theorem C4_monitor_terminal (respond : Nat → PollResponse)
    (interval max_attempts j : Nat) (t : TaskData)
    (hj : j < max_attempts)
    (hnt : ∀ i, i < j → isNonTerminalOk (respond i) = true)
    (ht : respond j = .ok t)
    (hterm : t.taskState ∈ terminalStates) :
    monitor_task respond interval max_attempts =
      (.terminal (pollStatus t), j + 1, j * interval) := by
  have hskip := monitor_task_skip respond interval j max_attempts (by omega) hnt
  obtain ⟨f, hf⟩ : ∃ f, max_attempts - j = f + 1 := ⟨max_attempts - j - 1, by omega⟩
  rw [hskip, hf]
  simp only [monitorFrom, ht]
  rw [if_pos hterm]
  simp only [Prod.mk.injEq]
  exact ⟨trivial, by omega, by omega⟩

/-- C4 witness: a stub whose first response is COMPLETE returns the terminal
status immediately, with one request and zero sleep. -/
theorem C4_monitor_terminal_witness :
    monitor_task (fun _ => .ok ⟨"COMPLETE", some "ok", some "done"⟩) 5 240 =
      (.terminal ⟨"COMPLETE", some "ok", "done"⟩, 0 + 1, 0 * 5) :=
  C4_monitor_terminal (fun _ => .ok ⟨"COMPLETE", some "ok", some "done"⟩)
    5 240 0 ⟨"COMPLETE", some "ok", some "done"⟩ (by decide)
    (fun i hi => absurd hi (Nat.not_lt_zero i)) rfl (by decide)

/-- C5: if the first `j` responses are non-terminal and the `j`-th status
request fails at the transport level, `monitor_task` aborts immediately with
the synthetic transport-error outcome: exactly `j + 1` requests were issued
(none after the failing one) and exactly `j * interval` seconds were slept
(no sleep after the failure); the failure is not counted as a retryable
attempt and polling does not continue. -/
theorem C5_monitor_transport_abort (respond : Nat → PollResponse)
    (interval max_attempts j : Nat)
    (hj : j < max_attempts)
    (hnt : ∀ i, i < j → isNonTerminalOk (respond i) = true)
    (hfail : respond j = .failure) :
    monitor_task respond interval max_attempts =
      (.transportError, j + 1, j * interval) := by
  have hskip := monitor_task_skip respond interval j max_attempts (by omega) hnt
  obtain ⟨f, hf⟩ : ∃ f, max_attempts - j = f + 1 := ⟨max_attempts - j - 1, by omega⟩
  rw [hskip, hf]
  simp only [monitorFrom, hfail]
  simp only [Prod.mk.injEq]
  exact ⟨trivial, by omega, by omega⟩

/-- C5 witness: one RUNNING response then a transport failure aborts after 2
requests and a single 5-second sleep, even with 240 attempts remaining. -/
theorem C5_monitor_transport_abort_witness :
    monitor_task (fun i => if i = 0 then .ok ⟨"RUNNING", none, none⟩ else .failure)
      5 240 = (.transportError, 1 + 1, 1 * 5) :=
  C5_monitor_transport_abort
    (fun i => if i = 0 then .ok ⟨"RUNNING", none, none⟩ else .failure) 5 240 1
    (by omega)
    (fun i hi => by interval_cases i; decide)
    rfl

/-- C10: any delivered state outside {COMPLETE, FAILED, CANCELLED} — whatever
the string, not only RUNNING — is treated as non-terminal: the loop sleeps
`interval` once and polls again from the next attempt, and the behaviour does
not depend on the unexpected string (no error is signalled merely because the
state value is unrecognised). -/
theorem C10_monitor_unknown_nonterminal (respond : Nat → PollResponse)
    (interval n : Nat) (t : TaskData)
    (h0 : respond 0 = .ok t)
    (hnt : t.taskState ∉ terminalStates) :
    monitor_task respond interval (n + 1) =
      ((monitorFrom respond interval 1 n).1,
       (monitorFrom respond interval 1 n).2.1 + 1,
       (monitorFrom respond interval 1 n).2.2 + interval) := by
  simp only [monitor_task, monitorFrom, h0]
  rw [if_neg hnt]

/-- C10 witness: an unrecognised state string "WEIRD_STATE" is polled past —
one sleep, then the next response (COMPLETE) is returned — rather than
signalling an error for the unexpected value. -/
theorem C10_monitor_unknown_nonterminal_witness :
    monitor_task
      (fun i => if i = 0 then .ok ⟨"WEIRD_STATE", none, none⟩
                else .ok ⟨"COMPLETE", none, none⟩) 7 2 =
      ((monitorFrom
          (fun i => if i = 0 then .ok ⟨"WEIRD_STATE", none, none⟩
                    else .ok ⟨"COMPLETE", none, none⟩) 7 1 1).1,
       (monitorFrom
          (fun i => if i = 0 then .ok ⟨"WEIRD_STATE", none, none⟩
                    else .ok ⟨"COMPLETE", none, none⟩) 7 1 1).2.1 + 1,
       (monitorFrom
          (fun i => if i = 0 then .ok ⟨"WEIRD_STATE", none, none⟩
                    else .ok ⟨"COMPLETE", none, none⟩) 7 1 1).2.2 + 7) :=
  C10_monitor_unknown_nonterminal
    (fun i => if i = 0 then .ok ⟨"WEIRD_STATE", none, none⟩
              else .ok ⟨"COMPLETE", none, none⟩) 7 1
    ⟨"WEIRD_STATE", none, none⟩ rfl (by decide)

/-! ## Resource locator: `get_file_id` / `get_process_id` (lines 173-219)

A listing entry is a JSON object on which the source calls `.get("name")`
and `.get("id")`; either key may be absent (`none`).  `list_files` /
`list_processes` deliver the listing; the loop returns the first entry whose
`name` equals the requested name, else raises
`ValueError(f"File {file_name} not found")` (resp. `Process ...`). -/

structure Entry where
  name : Option String
  id : Option String
deriving DecidableEq, Repr

/-- The `for file in files` loop of lines 190-193 / 214-217: first entry whose
`name` equals the requested name, returning its (possibly absent) `id`. -/
def findFirstId : List Entry → String → Option (Option String)
  | [], _ => none
  | e :: rest, nm => if e.name = some nm then some e.id else findFirstId rest nm

/-- `get_file_id` (lines 173-195) over a delivered listing: the first
name-matching entry's id, or the raised `ValueError` message. -/
def get_file_id (files : List Entry) (file_name : String) :
    Except String (Option String) :=
  match findFirstId files file_name with
  | some i => .ok i
  | none => .error ("File " ++ file_name ++ " not found")

/-- `get_process_id` (lines 197-219) over a delivered listing. -/
def get_process_id (processes : List Entry) (process_name : String) :
    Except String (Option String) :=
  match findFirstId processes process_name with
  | some i => .ok i
  | none => .error ("Process " ++ process_name ++ " not found")

lemma findFirstId_first (nm : String) (e : Entry) (he : e.name = some nm) :
    ∀ (pre post : List Entry), (∀ f ∈ pre, f.name ≠ some nm) →
    findFirstId (pre ++ e :: post) nm = some e.id := by
  intro pre
  induction pre with
  | nil => intro post _; simp [findFirstId, he]
  | cons p pre ih =>
    intro post hpre
    have hp : p.name ≠ some nm := hpre p (by simp)
    simp only [List.cons_append, findFirstId, if_neg hp]
    exact ih post (fun f hf => hpre f (by simp [hf]))

lemma findFirstId_none (nm : String) :
    ∀ (l : List Entry), (∀ f ∈ l, f.name ≠ some nm) →
    findFirstId l nm = none := by
  intro l
  induction l with
  | nil => intro _; rfl
  | cons p l ih =>
    intro h
    have hp : p.name ≠ some nm := h p (by simp)
    simp only [findFirstId, if_neg hp]
    exact ih (fun f hf => h f (by simp [hf]))

/-- C7: both resolvers return the id of the first entry whose name exactly
(case-sensitively) equals the requested name — among duplicate names the
first match's id wins — and when no entry's name matches they fail with the
`ValueError` message naming the requested resource. -/
theorem C7_name_resolution :
    (∀ (pre post : List Entry) (e : Entry) (nm : String),
      e.name = some nm → (∀ f ∈ pre, f.name ≠ some nm) →
      get_file_id (pre ++ e :: post) nm = .ok e.id ∧
      get_process_id (pre ++ e :: post) nm = .ok e.id) ∧
    (∀ (l : List Entry) (nm : String), (∀ f ∈ l, f.name ≠ some nm) →
      get_file_id l nm = .error ("File " ++ nm ++ " not found") ∧
      get_process_id l nm = .error ("Process " ++ nm ++ " not found")) := by
  constructor
  · intro pre post e nm he hpre
    have h := findFirstId_first nm e he pre post hpre
    exact ⟨by simp [get_file_id, h], by simp [get_process_id, h]⟩
  · intro l nm hl
    have h := findFirstId_none nm l hl
    exact ⟨by simp [get_file_id, h], by simp [get_process_id, h]⟩

/-- C7 witness: in a listing holding `"A"` (different case), then two entries
both named `"a"`, resolving `"a"` returns the first duplicate's id, and
resolving the absent `"b"` fails with the resource-naming message. -/
theorem C7_name_resolution_witness :
    get_file_id [⟨some "A", some "i0"⟩, ⟨some "a", some "i1"⟩,
        ⟨some "a", some "i2"⟩] "a" = .ok (some "i1") ∧
    get_process_id [⟨some "A", some "i0"⟩, ⟨some "a", some "i1"⟩,
        ⟨some "a", some "i2"⟩] "a" = .ok (some "i1") ∧
    get_file_id [⟨some "A", some "i0"⟩] "b" = .error "File b not found" ∧
    get_process_id [⟨some "A", some "i0"⟩] "b" = .error "Process b not found" := by
  have h1 := C7_name_resolution.1 [⟨some "A", some "i0"⟩]
    [⟨some "a", some "i2"⟩] ⟨some "a", some "i1"⟩ "a" rfl (by decide)
  have h2 := C7_name_resolution.2 [⟨some "A", some "i0"⟩] "b" (by decide)
  exact ⟨h1.1, h1.2, h2.1, h2.2⟩

/-! ## Session manager: `authenticate` (lines 67-94)

The engine state holds `self.token` and `self.headers` (both `None` until a
successful authentication).  The authentication response is either a
transport-level failure (connection error, or a non-2xx status raised by
`raise_for_status`, after the session's retries) or a JSON body from which
the source reads `data.get("status")` and `data["tokenInfo"]["tokenValue"]`;
`none` for `tokenValue` models the missing-key (malformed-body) case. -/

structure EngineState where
  token : Option String
  headers : Option (List (String × String))
deriving DecidableEq, Repr

inductive AuthResponse where
  | transportFailure
  | body (status : Option String) (tokenValue : Option String)
deriving DecidableEq, Repr

inductive AuthError where
  | transport
  | invalidCredentials
  | malformed
deriving DecidableEq, Repr

/-- The headers stored at lines 86-89 on success. -/
def authHeaders (tok : String) : List (String × String) :=
  [("Authorization", "AnaplanAuthToken " ++ tok),
   ("Content-Type", "application/json")]

/-- `authenticate` (lines 67-94): returns the post-call engine state and the
error signalled, if any.  Mutation happens only on the single success path
(lines 85-89), after the success-discriminator check and the token lookup;
every failure raises before any assignment executes. -/
def authenticate (resp : AuthResponse) (st : EngineState) :
    EngineState × Option AuthError :=
  match resp with
  | .transportFailure => (st, some .transport)
  | .body status tokenValue =>
    if status ≠ some "SUCCESS" then (st, some .invalidCredentials)
    else
      match tokenValue with
      | none => (st, some .malformed)
      | some tok => (⟨some tok, some (authHeaders tok)⟩, none)

/-- C8: every authentication failure — transport error, non-SUCCESS status
discriminator, or malformed body with no token value — signals an error, and
on any failed call the stored token and authorization headers are exactly
what they were before the call (unset if no prior session existed). -/
theorem C8_auth_failure_no_session :
    (∀ st : EngineState, (authenticate .transportFailure st).2.isSome) ∧
    (∀ (st : EngineState) (status : Option String) (tok : Option String),
      status ≠ some "SUCCESS" → (authenticate (.body status tok) st).2.isSome) ∧
    (∀ (st : EngineState) (status : Option String),
      (authenticate (.body status none) st).2.isSome) ∧
    (∀ (resp : AuthResponse) (st : EngineState),
      (authenticate resp st).2.isSome → (authenticate resp st).1 = st) := by
  refine ⟨fun st => rfl, ?_, ?_, ?_⟩
  · intro st status tok h
    simp [authenticate, if_pos h]
  · intro st status
    by_cases h : status = some "SUCCESS" <;> simp [authenticate, h]
  · intro resp st h
    cases resp with
    | transportFailure => rfl
    | body status tokenValue =>
      by_cases hs : status = some "SUCCESS"
      · cases tokenValue with
        | none => simp [authenticate, hs]
        | some tok => simp [authenticate, hs] at h
      · simp [authenticate, hs]

/-- C8 witness: a non-SUCCESS discriminator and a missing token value each
fail and leave a fresh (sessionless) state untouched, as does a transport
failure on a state that already held a session. -/
theorem C8_auth_failure_no_session_witness :
    (authenticate (.body (some "FAILURE") (some "tok")) ⟨none, none⟩).2.isSome ∧
    (authenticate (.body (some "SUCCESS") none) ⟨none, none⟩).2.isSome ∧
    (authenticate (.body (some "FAILURE") (some "tok")) ⟨none, none⟩).1 =
      ⟨none, none⟩ ∧
    (authenticate .transportFailure ⟨some "old", some (authHeaders "old")⟩).1 =
      ⟨some "old", some (authHeaders "old")⟩ := by
  refine ⟨?h1, ?h2, ?h3, ?h4⟩
  · exact C8_auth_failure_no_session.2.1 ⟨none, none⟩ (some "FAILURE")
      (some "tok") (by decide)
  · exact C8_auth_failure_no_session.2.2.1 ⟨none, none⟩ (some "SUCCESS")
  · exact C8_auth_failure_no_session.2.2.2 (.body (some "FAILURE") (some "tok"))
      ⟨none, none⟩ (by decide)
  · exact C8_auth_failure_no_session.2.2.2 .transportFailure
      ⟨some "old", some (authHeaders "old")⟩ (by decide)

/-! ## Chunked upload: `upload_file` / `upload_file_chunk` (lines 221-308)

The local file is embedded as its byte list.  `chunk_size` is an `Int`
because the source performs Python floor division
`(file_size + chunk_size - 1) // chunk_size` (`Int.fdiv`) on whatever
integer the caller passes; `chunk_size = 0` raises `ZeroDivisionError`
before any request is issued.  The transport oracle answers the initiate
POST, each per-chunk PUT (by chunk index) and the completion POST. -/

/-- Python `f.read(c)`: a negative count reads all remaining bytes,
otherwise at most `c` bytes are consumed from the front. -/
def pyRead (c : Int) (rest : List Nat) : List Nat × List Nat :=
  if c < 0 then (rest, []) else (rest.take c.toNat, rest.drop c.toNat)

/-- The successive `f.read(chunk_size)` results of the loop at lines
294-297, for `n` iterations over a sequentially-read file. -/
def readChunksAux (c : Int) : Nat → List Nat → List (List Nat)
  | 0, _ => []
  | n + 1, rest => (pyRead c rest).1 :: readChunksAux c n (pyRead c rest).2

/-- The per-chunk PUT loop: transmit bodies in increasing index order
starting at `k`, stopping at the first index whose PUT fails
(`upload_file_chunk` re-raises, lines 243-249).  Returns the successfully
transmitted `(index, body)` pairs in order, and the failing index if any. -/
def sendChunksAux (ok : Nat → Bool) : Nat → List (List Nat) →
    List (Nat × List Nat) × Option Nat
  | _, [] => ([], none)
  | k, b :: bs =>
    if ok k then
      let r := sendChunksAux ok (k + 1) bs
      ((k, b) :: r.1, r.2)
    else ([], some k)

inductive UploadError where
  | zeroDivision
  | initTransport
  | noFileId
  | chunkUpload (k : Nat)
  | completeFailed
deriving DecidableEq, Repr

/-- Response to the initiate POST of lines 280-292: transport failure, or a
JSON body whose `id` field may be absent. -/
inductive InitResponse where
  | failure
  | ok (id : Option String)
deriving DecidableEq, Repr

structure UploadTransport where
  initResponse : InitResponse
  chunkOk : Nat → Bool
  completeOk : Bool

/-- Observable behaviour of one `upload_file` call: the returned file id or
raised error, the chunks transmitted (index and body, in order), and the
`chunkCount` declared in the initiate and completion POSTs when each was
issued. -/
structure UploadOutcome where
  result : Except UploadError String
  chunksSent : List (Nat × List Nat)
  initiated : Option Int
  completionCalled : Option Int
deriving Repr

/-- The source's chunk-count expression
`(file_size + chunk_size - 1) // chunk_size` (line 278), Python `//` being
floor division. -/
def pyChunkCount (file_size : Nat) (chunk_size : Int) : Int :=
  Int.fdiv ((file_size : Int) + chunk_size - 1) chunk_size

/-- `upload_file` (lines 251-308): compute the chunk count, initiate the
upload declaring it, PUT each chunk of the sequentially-read file in index
order 0,1,2,... aborting on the first failure, then declare the same count
in the completion POST.  `range(chunk_count)` over a negative count is
empty, hence `chunk_count.toNat` iterations. -/
def upload_file (file : List Nat) (chunk_size : Int) (tr : UploadTransport) :
    UploadOutcome :=
  if chunk_size = 0 then
    ⟨.error .zeroDivision, [], none, none⟩
  else
    let chunk_count := pyChunkCount file.length chunk_size
    match tr.initResponse with
    | .failure => ⟨.error .initTransport, [], some chunk_count, none⟩
    | .ok none => ⟨.error .noFileId, [], some chunk_count, none⟩
    | .ok (some fid) =>
      let bodies := readChunksAux chunk_size chunk_count.toNat file
      match sendChunksAux tr.chunkOk 0 bodies with
      | (sent, some k) => ⟨.error (.chunkUpload k), sent, some chunk_count, none⟩
      | (sent, none) =>
        if tr.completeOk then
          ⟨.ok fid, sent, some chunk_count, some chunk_count⟩
        else
          ⟨.error .completeFailed, sent, some chunk_count, some chunk_count⟩

/-- The value of the source's chunk-count expression at a positive chunk
size, as a natural number: `⌈S / C⌉`. -/
def pyCeil (S C : Nat) : Nat := (S + C - 1) / C

lemma pyChunkCount_pos_cast (S C : Nat) (hC : 0 < C) :
    pyChunkCount S (C : Int) = (pyCeil S C : Int) := by
  unfold pyChunkCount pyCeil
  have h1 : ((S : Int) + (C : Int) - 1) = ((S + C - 1 : Nat) : Int) := by
    omega
  rw [h1, Int.fdiv_eq_ediv _ (by positivity)]
  exact (Int.ofNat_ediv (S + C - 1) C).symm

lemma pyCeil_mul_ge (S C : Nat) (hC : 0 < C) : S ≤ pyCeil S C * C := by
  by_contra hcon
  push_neg at hcon
  have h2 : (pyCeil S C + 1) * C ≤ S + C - 1 := by
    have hsm : (pyCeil S C + 1) * C = pyCeil S C * C + C := by ring
    generalize pyCeil S C * C = a at hcon hsm
    omega
  have h3 := (Nat.le_div_iff_mul_le hC).mpr h2
  unfold pyCeil at h3
  omega

lemma pyCeil_pred_mul_lt (S C : Nat) (hC : 0 < C) (hS : 0 < S) :
    (pyCeil S C - 1) * C < S := by
  have h1 : pyCeil S C * C ≤ S + C - 1 := Nat.div_mul_le_self _ _
  have hn : 1 ≤ pyCeil S C := by
    have := (Nat.le_div_iff_mul_le hC).mpr (by omega : 1 * C ≤ S + C - 1)
    exact this
  have hsm : pyCeil S C * C = (pyCeil S C - 1) * C + C := by
    obtain ⟨m, hm⟩ : ∃ m, pyCeil S C = m + 1 := ⟨pyCeil S C - 1, by omega⟩
    rw [hm]
    simp only [Nat.add_sub_cancel]
    ring
  generalize (pyCeil S C - 1) * C = a at h1 hsm
  omega

lemma pyCeil_min (S C : Nat) (hC : 0 < C) (m : Nat) (hm : S ≤ m * C) :
    pyCeil S C ≤ m := by
  unfold pyCeil
  have hm' : S ≤ C * m := by rw [mul_comm]; exact hm
  have h1 : S + C - 1 ≤ C - 1 + C * m := by
    generalize C * m = a at hm' ⊢
    omega
  have h2 : (C - 1 + C * m) / C = m := by
    rw [Nat.add_mul_div_left _ _ hC, Nat.div_eq_of_lt (by omega)]
    omega
  calc (S + C - 1) / C ≤ (C - 1 + C * m) / C := Nat.div_le_div_right h1
    _ = m := h2

lemma pyCeil_zero (C : Nat) (hC : 0 < C) : pyCeil 0 C = 0 := by
  unfold pyCeil
  exact Nat.div_eq_of_lt (by omega)

lemma readChunksAux_pos (c : Int) (hc : 0 < c) :
    ∀ (n : Nat) (rest : List Nat),
    readChunksAux c n rest =
      (List.range' 0 n).map (fun k => (rest.drop (k * c.toNat)).take c.toNat) := by
  intro n
  induction n with
  | zero => intro rest; rfl
  | succ n ih =>
    intro rest
    have hnneg : ¬ c < 0 := by omega
    rw [readChunksAux, List.range'_succ]
    simp only [pyRead, if_neg hnneg, List.map_cons, Nat.zero_mul, List.drop_zero]
    refine congrArg _ ?_
    rw [ih (rest.drop c.toNat)]
    rw [List.range'_eq_map_range, List.range'_eq_map_range, List.map_map,
      List.map_map]
    refine List.map_congr_left ?_
    intro k _
    simp only [Function.comp_apply, List.drop_drop]
    congr 2
    ring

lemma readChunksAux_length (c : Int) :
    ∀ (n : Nat) (rest : List Nat), (readChunksAux c n rest).length = n := by
  intro n
  induction n with
  | zero => intro rest; rfl
  | succ n ih => intro rest; simp [readChunksAux, ih]

lemma sendChunksAux_allOk (ok : Nat → Bool) (hok : ∀ j, ok j = true)
    (g : Nat → List Nat) :
    ∀ (n start : Nat),
    sendChunksAux ok start ((List.range' start n).map g) =
      ((List.range' start n).map (fun k => (k, g k)), none) := by
  intro n
  induction n with
  | zero => intro start; rfl
  | succ n ih =>
    intro start
    rw [List.range'_succ, List.map_cons, sendChunksAux, if_pos (hok start)]
    simp only [ih (start + 1)]
    simp

lemma sendChunksAux_allOk_snd (ok : Nat → Bool) (hok : ∀ j, ok j = true) :
    ∀ (bs : List (List Nat)) (start : Nat),
    (sendChunksAux ok start bs).2 = none := by
  intro bs
  induction bs with
  | nil => intro start; rfl
  | cons b bs ih =>
    intro start
    rw [sendChunksAux, if_pos (hok start)]
    exact ih (start + 1)

lemma sendChunksAux_fail (ok : Nat → Bool) (k : Nat) (hk : ok k = false)
    (hpre : ∀ j, j < k → ok j = true) :
    ∀ (bs : List (List Nat)) (start : Nat), start ≤ k → k < start + bs.length →
    (sendChunksAux ok start bs).2 = some k ∧
    ∀ p ∈ (sendChunksAux ok start bs).1, p.1 < k := by
  intro bs
  induction bs with
  | nil => intro start _ h2; simp at h2; omega
  | cons b bs ih =>
    intro start h1 h2
    by_cases hsk : start = k
    · subst hsk
      rw [sendChunksAux, if_neg (by simp [hk])]
      exact ⟨rfl, by simp⟩
    · have hlt : start < k := by omega
      rw [sendChunksAux, if_pos (hpre start hlt)]
      have hrec := ih (start + 1) (by omega) (by simp at h2 ⊢; omega)
      refine ⟨hrec.1, ?_⟩
      intro p hp
      simp only [List.mem_cons] at hp
      rcases hp with rfl | hp
      · exact hlt
      · exact hrec.2 p hp

lemma upload_file_pos_eq (file : List Nat) (C : Nat) (hC : 0 < C)
    (fid : String) (tr : UploadTransport)
    (hinit : tr.initResponse = .ok (some fid)) :
    upload_file file (C : Int) tr =
      (match sendChunksAux tr.chunkOk 0
          ((List.range' 0 (pyCeil file.length C)).map
            (fun k => (file.drop (k * C)).take C)) with
       | (sent, some k) => ⟨.error (.chunkUpload k), sent,
            some (pyCeil file.length C : Int), none⟩
       | (sent, none) =>
         if tr.completeOk then
           ⟨.ok fid, sent, some (pyCeil file.length C : Int),
             some (pyCeil file.length C : Int)⟩
         else
           ⟨.error .completeFailed, sent, some (pyCeil file.length C : Int),
             some (pyCeil file.length C : Int)⟩) := by
  have hCz : (C : Int) ≠ 0 := by exact_mod_cast hC.ne'
  unfold upload_file
  rw [if_neg hCz]
  simp only [hinit, pyChunkCount_pos_cast file.length C hC, Int.toNat_ofNat]
  rw [readChunksAux_pos (C : Int) (by exact_mod_cast hC)]
  simp only [Int.toNat_ofNat]

/-- C1: a fully successful `upload_file` of an `S`-byte file with chunk size
`C > 0` transmits exactly `⌈S/C⌉` chunks whose indices are the contiguous
increasing sequence `0, 1, ..., ⌈S/C⌉ - 1` with no gaps, duplicates or
reordering; every chunk body except possibly the last is exactly `C` bytes
(the last is the `S - (⌈S/C⌉-1)·C` remaining bytes, and no body exceeds
`C`); and the completion call declares that same chunk count.  The last two
conjuncts pin `pyCeil S C` as the true ceiling `⌈S/C⌉`: the least `n` with
`S ≤ n·C`. -/
theorem C1_upload_chunk_protocol (file : List Nat) (C : Nat) (hC : 0 < C)
    (fid : String) (tr : UploadTransport)
    (hinit : tr.initResponse = .ok (some fid))
    (hch : ∀ k, tr.chunkOk k = true)
    (hco : tr.completeOk = true) :
    (upload_file file (C : Int) tr).result = .ok fid ∧
    (upload_file file (C : Int) tr).chunksSent.length = pyCeil file.length C ∧
    (upload_file file (C : Int) tr).chunksSent.map Prod.fst =
      List.range (pyCeil file.length C) ∧
    (∀ p ∈ (upload_file file (C : Int) tr).chunksSent,
      p.1 + 1 < pyCeil file.length C → p.2.length = C) ∧
    (∀ p ∈ (upload_file file (C : Int) tr).chunksSent, p.2.length ≤ C) ∧
    (∀ p ∈ (upload_file file (C : Int) tr).chunksSent,
      p.1 + 1 = pyCeil file.length C →
      p.2.length = file.length - (pyCeil file.length C - 1) * C) ∧
    (upload_file file (C : Int) tr).completionCalled =
      some (pyCeil file.length C : Int) ∧
    file.length ≤ pyCeil file.length C * C ∧
    (∀ m, file.length ≤ m * C → pyCeil file.length C ≤ m) := by
  have key := upload_file_pos_eq file C hC fid tr hinit
  rw [sendChunksAux_allOk tr.chunkOk hch
    (fun k => (file.drop (k * C)).take C) (pyCeil file.length C) 0, hco] at key
  simp only [if_true] at key
  rw [key]
  have hmem : ∀ p ∈ (List.range' 0 (pyCeil file.length C)).map
      (fun k => (k, (file.drop (k * C)).take C)),
      p.1 < pyCeil file.length C ∧ p.2 = (file.drop (p.1 * C)).take C := by
    intro p hp
    simp only [List.mem_map, List.mem_range'_1] at hp
    obtain ⟨k, hk, rfl⟩ := hp
    exact ⟨by omega, rfl⟩
  refine ⟨rfl, by simp,
    by simp [List.map_map, List.range_eq_range', Function.comp_def], ?_, ?_, ?_,
    rfl, pyCeil_mul_ge _ _ hC, fun m hm => pyCeil_min _ _ hC m hm⟩
  · intro p hp hlast
    obtain ⟨hk, hb⟩ := hmem p hp
    have hS : 0 < file.length := by
      by_contra hz
      have : file.length = 0 := by omega
      rw [this, pyCeil_zero C hC] at hlast
      omega
    have hlt := pyCeil_pred_mul_lt file.length C hC hS
    have hmono : (p.1 + 1) * C ≤ (pyCeil file.length C - 1) * C :=
      Nat.mul_le_mul_right C (by omega)
    have hsm : (p.1 + 1) * C = p.1 * C + C := by ring
    rw [hb]
    simp only [List.length_take, List.length_drop]
    generalize hA : p.1 * C = a at hsm
    generalize hB : (pyCeil file.length C - 1) * C = b at hlt hmono
    generalize hX : (p.1 + 1) * C = x at hsm hmono
    omega
  · intro p hp
    obtain ⟨hk, hb⟩ := hmem p hp
    rw [hb]
    simp only [List.length_take, List.length_drop]
    omega
  · intro p hp hlast
    obtain ⟨hk, hb⟩ := hmem p hp
    have hge := pyCeil_mul_ge file.length C hC
    have hn1 : 1 ≤ pyCeil file.length C := by omega
    have hsm : pyCeil file.length C * C = (pyCeil file.length C - 1) * C + C := by
      obtain ⟨m, hm⟩ : ∃ m, pyCeil file.length C = m + 1 :=
        ⟨pyCeil file.length C - 1, by omega⟩
      rw [hm]
      simp only [Nat.add_sub_cancel]
      ring
    have hp1 : p.1 = pyCeil file.length C - 1 := by omega
    rw [hb, hp1]
    simp only [List.length_take, List.length_drop]
    generalize hA : (pyCeil file.length C - 1) * C = a at hsm hge ⊢
    generalize hB : pyCeil file.length C * C = b at hsm hge
    omega

/-- C1 witness: a 5-byte file with chunk size 2 produces chunks 0,1,2 of
sizes 2,2,1 and completes declaring chunk count 3. -/
theorem C1_upload_chunk_protocol_witness :
    (upload_file [1, 2, 3, 4, 5] ((2 : Nat) : Int)
        ⟨.ok (some "f1"), fun _ => true, true⟩).result = .ok "f1" ∧
    (upload_file [1, 2, 3, 4, 5] ((2 : Nat) : Int)
        ⟨.ok (some "f1"), fun _ => true, true⟩).chunksSent.length = 3 ∧
    (upload_file [1, 2, 3, 4, 5] ((2 : Nat) : Int)
        ⟨.ok (some "f1"), fun _ => true, true⟩).chunksSent.map Prod.fst =
      List.range 3 ∧
    (upload_file [1, 2, 3, 4, 5] ((2 : Nat) : Int)
        ⟨.ok (some "f1"), fun _ => true, true⟩).completionCalled = some 3 := by
  have h := C1_upload_chunk_protocol [1, 2, 3, 4, 5] 2 (by decide) "f1"
    ⟨.ok (some "f1"), fun _ => true, true⟩ rfl (fun _ => rfl) rfl
  have hceil : pyCeil ([1, 2, 3, 4, 5] : List Nat).length 2 = 3 := rfl
  exact ⟨h.1, by rw [h.2.1, hceil], by rw [h.2.2.1, hceil],
    by rw [h.2.2.2.2.2.2.1, hceil]; rfl⟩

/-- C6: if the PUT for chunk `k` fails (all earlier chunks having succeeded),
`upload_file` aborts the whole upload at once: the signalled error is the
chunk-upload failure carrying index `k` (the failing request is the one
addressed to `.../chunks/k`), no chunk with index greater than `k` — indeed
none with index ≥ `k` — is transmitted, and the completion call is never
issued. -/
theorem C6_chunk_failure_aborts (file : List Nat) (C : Nat) (hC : 0 < C)
    (fid : String) (tr : UploadTransport) (k : Nat)
    (hinit : tr.initResponse = .ok (some fid))
    (hpre : ∀ j, j < k → tr.chunkOk j = true)
    (hk : tr.chunkOk k = false)
    (hkn : k < pyCeil file.length C) :
    (upload_file file (C : Int) tr).result = .error (.chunkUpload k) ∧
    (∀ p ∈ (upload_file file (C : Int) tr).chunksSent, p.1 < k) ∧
    (upload_file file (C : Int) tr).completionCalled = none := by
  have key := upload_file_pos_eq file C hC fid tr hinit
  have hfail := sendChunksAux_fail tr.chunkOk k hk hpre
    ((List.range' 0 (pyCeil file.length C)).map
      (fun j => (file.drop (j * C)).take C)) 0 (Nat.zero_le k)
    (by simpa using hkn)
  rcases hs : sendChunksAux tr.chunkOk 0
      ((List.range' 0 (pyCeil file.length C)).map
        (fun j => (file.drop (j * C)).take C)) with ⟨sent, os⟩
  rw [hs] at key hfail
  obtain ⟨h2, hsent⟩ := hfail
  simp only at h2
  subst h2
  rw [key]
  exact ⟨rfl, fun p hp => hsent p hp, rfl⟩

/-- C6 witness: chunk 1 of a 3-chunk upload fails; the error carries index 1,
only chunk 0 was transmitted, and no completion call is issued. -/
theorem C6_chunk_failure_aborts_witness :
    (upload_file [1, 2, 3, 4, 5] ((2 : Nat) : Int)
        ⟨.ok (some "f1"), fun j => j == 0, true⟩).result =
      .error (.chunkUpload 1) ∧
    (∀ p ∈ (upload_file [1, 2, 3, 4, 5] ((2 : Nat) : Int)
        ⟨.ok (some "f1"), fun j => j == 0, true⟩).chunksSent, p.1 < 1) ∧
    (upload_file [1, 2, 3, 4, 5] ((2 : Nat) : Int)
        ⟨.ok (some "f1"), fun j => j == 0, true⟩).completionCalled = none :=
  C6_chunk_failure_aborts [1, 2, 3, 4, 5] 2 (by decide) "f1"
    ⟨.ok (some "f1"), fun j => j == 0, true⟩ 1 rfl
    (fun j hj => by interval_cases j; rfl) rfl (by decide)

/-- C9 counterexample: with `chunk_size = -1` on the 5-byte file the code
does not reject the configuration and signals no error: the call succeeds,
declaring the nonsensical `chunkCount = -3` (Python floor division
`(5 + (-1) - 1) // (-1)`) in both the initiate and completion requests while
transmitting no chunk of the non-empty file. -/
theorem C9_negative_chunk_counterexample :
    (upload_file [1, 2, 3, 4, 5] (-1)
        ⟨.ok (some "f1"), fun _ => true, true⟩).result = .ok "f1" ∧
    (upload_file [1, 2, 3, 4, 5] (-1)
        ⟨.ok (some "f1"), fun _ => true, true⟩).chunksSent = [] ∧
    (upload_file [1, 2, 3, 4, 5] (-1)
        ⟨.ok (some "f1"), fun _ => true, true⟩).initiated = some (-3) ∧
    (upload_file [1, 2, 3, 4, 5] (-1)
        ⟨.ok (some "f1"), fun _ => true, true⟩).completionCalled = some (-3) :=
  ⟨rfl, rfl, rfl, rfl⟩

/-- C9 (amended): `upload_file` performs no chunk-size validation.  A call
with `chunk_size = 0` aborts with the `ZeroDivisionError` raised by the
chunk-count computation, before any request is issued and with no data
transferred; a negative `chunk_size` is not rejected — the upload proceeds
without signalling any error, declaring
`chunkCount = (S + chunk_size - 1) // chunk_size` (Python floor division) in
both the initiate and the completion calls. -/
theorem C9_amended_no_chunk_size_validation (file : List Nat)
    (tr : UploadTransport) (fid : String) (C : Int) :
    (C = 0 → upload_file file C tr =
      ⟨.error .zeroDivision, [], none, none⟩) ∧
    (C < 0 → tr.initResponse = .ok (some fid) →
      (∀ k, tr.chunkOk k = true) → tr.completeOk = true →
      (upload_file file C tr).result = .ok fid ∧
      (upload_file file C tr).initiated =
        some (pyChunkCount file.length C) ∧
      (upload_file file C tr).completionCalled =
        some (pyChunkCount file.length C)) := by
  constructor
  · intro h
    subst h
    rfl
  · intro hC hinit hch hco
    unfold upload_file
    rw [if_neg (by omega)]
    simp only [hinit]
    have hsnd := sendChunksAux_allOk_snd tr.chunkOk hch
      (readChunksAux C (pyChunkCount file.length C).toNat file) 0
    rcases hs : sendChunksAux tr.chunkOk 0
        (readChunksAux C (pyChunkCount file.length C).toNat file) with ⟨sent, os⟩
    rw [hs] at hsnd
    simp only at hsnd
    subst hsnd
    rw [hco]
    exact ⟨rfl, rfl, rfl⟩

/-- C9 amended witness: concrete checks of both halves — chunk size 0 on a
1-byte file, and chunk size -1 on the 5-byte file. -/
theorem C9_amended_no_chunk_size_validation_witness :
    upload_file [7] 0 ⟨.ok (some "f1"), fun _ => true, true⟩ =
      ⟨.error .zeroDivision, [], none, none⟩ ∧
    ((upload_file [1, 2, 3, 4, 5] (-1)
        ⟨.ok (some "f1"), fun _ => true, true⟩).result = .ok "f1" ∧
     (upload_file [1, 2, 3, 4, 5] (-1)
        ⟨.ok (some "f1"), fun _ => true, true⟩).initiated =
       some (pyChunkCount 5 (-1)) ∧
     (upload_file [1, 2, 3, 4, 5] (-1)
        ⟨.ok (some "f1"), fun _ => true, true⟩).completionCalled =
       some (pyChunkCount 5 (-1))) :=
  ⟨(C9_amended_no_chunk_size_validation [7]
      ⟨.ok (some "f1"), fun _ => true, true⟩ "f1" 0).1 rfl,
   (C9_amended_no_chunk_size_validation [1, 2, 3, 4, 5]
      ⟨.ok (some "f1"), fun _ => true, true⟩ "f1" (-1)).2
     (by decide) rfl (fun _ => rfl) rfl⟩

/-! ## Sequence orchestrator: `execute_sequence` (lines 391-434)

The three-step sequence invokes, in source order: `get_process_id` for the
wake-up process, `trigger_process`, `monitor_task` (step 1 — wake-up);
`upload_file` (step 2); `get_process_id`, `trigger_process`, `monitor_task`
for the main process (step 3).  Each sub-call's outcome is supplied by the
environment, with the same outcome types verified for the components above;
a raised exception anywhere propagates out of the `try` block (the final
`except` clause only logs and re-raises, line 432-434).  The returned
trace records which sub-calls were invoked, in order. -/

inductive SeqCall where
  | wakeResolve
  | wakeTrigger
  | wakeMonitor
  | fileUpload
  | mainResolve
  | mainTrigger
  | mainMonitor
deriving DecidableEq, Repr

structure SeqEnv where
  wakeResolve : Except String String
  wakeTrigger : Except Unit String
  wakeMonitor : MonitorOutcome
  uploadResult : Except UploadError String
  mainResolve : Except String String
  mainTrigger : Except Unit String
  mainMonitor : MonitorOutcome

inductive SeqError where
  | wakeNotFound (msg : String)
  | wakeTriggerFailed
  | wakePollTransport
  | wakePollTimeout
  | wakeUpFailed (msg : String)
  | uploadFailed (e : UploadError)
  | mainNotFound (msg : String)
  | mainTriggerFailed
  | mainPollTransport
  | mainPollTimeout
  | mainProcessFailed (msg : String)
deriving DecidableEq, Repr

/-- `execute_sequence` (lines 391-434): strict step order, each sub-call
gated on the previous one's success; a wake-up terminal status other than
COMPLETE raises at line 419 (with the status dict's message), and likewise
for the main process at line 428. -/
def execute_sequence (env : SeqEnv) : Except SeqError Unit × List SeqCall :=
  match env.wakeResolve with
  | .error m => (.error (.wakeNotFound m), [.wakeResolve])
  | .ok _ =>
    match env.wakeTrigger with
    | .error _ => (.error .wakeTriggerFailed, [.wakeResolve, .wakeTrigger])
    | .ok _ =>
      match env.wakeMonitor with
      | .transportError => (.error .wakePollTransport,
          [.wakeResolve, .wakeTrigger, .wakeMonitor])
      | .timeout => (.error .wakePollTimeout,
          [.wakeResolve, .wakeTrigger, .wakeMonitor])
      | .terminal st =>
        if st.status ≠ "COMPLETE" then
          (.error (.wakeUpFailed st.message),
            [.wakeResolve, .wakeTrigger, .wakeMonitor])
        else
          match env.uploadResult with
          | .error e => (.error (.uploadFailed e),
              [.wakeResolve, .wakeTrigger, .wakeMonitor, .fileUpload])
          | .ok _ =>
            match env.mainResolve with
            | .error m => (.error (.mainNotFound m),
                [.wakeResolve, .wakeTrigger, .wakeMonitor, .fileUpload,
                 .mainResolve])
            | .ok _ =>
              match env.mainTrigger with
              | .error _ => (.error .mainTriggerFailed,
                  [.wakeResolve, .wakeTrigger, .wakeMonitor, .fileUpload,
                   .mainResolve, .mainTrigger])
              | .ok _ =>
                match env.mainMonitor with
                | .transportError => (.error .mainPollTransport,
                    [.wakeResolve, .wakeTrigger, .wakeMonitor, .fileUpload,
                     .mainResolve, .mainTrigger, .mainMonitor])
                | .timeout => (.error .mainPollTimeout,
                    [.wakeResolve, .wakeTrigger, .wakeMonitor, .fileUpload,
                     .mainResolve, .mainTrigger, .mainMonitor])
                | .terminal st2 =>
                  if st2.status ≠ "COMPLETE" then
                    (.error (.mainProcessFailed st2.message),
                      [.wakeResolve, .wakeTrigger, .wakeMonitor, .fileUpload,
                       .mainResolve, .mainTrigger, .mainMonitor])
                  else
                    (.ok (),
                      [.wakeResolve, .wakeTrigger, .wakeMonitor, .fileUpload,
                       .mainResolve, .mainTrigger, .mainMonitor])

/-- C2: whenever the wake-up step goes wrong — its monitor ends in a terminal
state other than COMPLETE, or any of its three sub-operations (resolve,
trigger, poll) signals an error — `execute_sequence` aborts with an error
and its trace stays within the wake-up step: the file upload, the
main-process trigger and the main-process poll are never invoked. -/
theorem C2_wakeup_abort (env : SeqEnv)
    (h : (∃ m, env.wakeResolve = .error m) ∨ env.wakeTrigger = .error () ∨
         env.wakeMonitor = .transportError ∨ env.wakeMonitor = .timeout ∨
         (∃ st, env.wakeMonitor = .terminal st ∧ st.status ≠ "COMPLETE")) :
    (∃ e, (execute_sequence env).1 = .error e) ∧
    SeqCall.fileUpload ∉ (execute_sequence env).2 ∧
    SeqCall.mainTrigger ∉ (execute_sequence env).2 ∧
    SeqCall.mainMonitor ∉ (execute_sequence env).2 := by
  rcases h with ⟨m, hm⟩ | hwt | hwm | hwm | ⟨st, hwm, hst⟩
  · simp only [execute_sequence, hm]
    exact ⟨⟨.wakeNotFound m, rfl⟩, by decide, by decide, by decide⟩
  · cases hwr : env.wakeResolve with
    | error m =>
      simp only [execute_sequence, hwr]
      exact ⟨⟨.wakeNotFound m, rfl⟩, by decide, by decide, by decide⟩
    | ok w =>
      simp only [execute_sequence, hwr, hwt]
      exact ⟨⟨.wakeTriggerFailed, rfl⟩, by decide, by decide, by decide⟩
  · cases hwr : env.wakeResolve with
    | error m =>
      simp only [execute_sequence, hwr]
      exact ⟨⟨.wakeNotFound m, rfl⟩, by decide, by decide, by decide⟩
    | ok w =>
      cases hwt : env.wakeTrigger with
      | error u =>
        simp only [execute_sequence, hwr, hwt]
        exact ⟨⟨.wakeTriggerFailed, rfl⟩, by decide, by decide, by decide⟩
      | ok t =>
        simp only [execute_sequence, hwr, hwt, hwm]
        exact ⟨⟨.wakePollTransport, rfl⟩, by decide, by decide, by decide⟩
  · cases hwr : env.wakeResolve with
    | error m =>
      simp only [execute_sequence, hwr]
      exact ⟨⟨.wakeNotFound m, rfl⟩, by decide, by decide, by decide⟩
    | ok w =>
      cases hwt : env.wakeTrigger with
      | error u =>
        simp only [execute_sequence, hwr, hwt]
        exact ⟨⟨.wakeTriggerFailed, rfl⟩, by decide, by decide, by decide⟩
      | ok t =>
        simp only [execute_sequence, hwr, hwt, hwm]
        exact ⟨⟨.wakePollTimeout, rfl⟩, by decide, by decide, by decide⟩
  · cases hwr : env.wakeResolve with
    | error m =>
      simp only [execute_sequence, hwr]
      exact ⟨⟨.wakeNotFound m, rfl⟩, by decide, by decide, by decide⟩
    | ok w =>
      cases hwt : env.wakeTrigger with
      | error u =>
        simp only [execute_sequence, hwr, hwt]
        exact ⟨⟨.wakeTriggerFailed, rfl⟩, by decide, by decide, by decide⟩
      | ok t =>
        simp only [execute_sequence, hwr, hwt, hwm]
        rw [if_pos hst]
        exact ⟨⟨.wakeUpFailed st.message, rfl⟩, by simp, by simp, by simp⟩

/-- C2 witness: the wake-up job polls to terminal state FAILED; the sequence
errors with that step's message and never reaches the upload, the main
trigger, or the main poll — even though every later stub would succeed. -/
theorem C2_wakeup_abort_witness :
    (∃ e, (execute_sequence
      ⟨.ok "wakeId", .ok "task1", .terminal ⟨"FAILED", none, "step 1"⟩,
       .ok "fid", .ok "mainId", .ok "task2",
       .terminal ⟨"COMPLETE", none, "done"⟩⟩).1 = .error e) ∧
    SeqCall.fileUpload ∉ (execute_sequence
      ⟨.ok "wakeId", .ok "task1", .terminal ⟨"FAILED", none, "step 1"⟩,
       .ok "fid", .ok "mainId", .ok "task2",
       .terminal ⟨"COMPLETE", none, "done"⟩⟩).2 ∧
    SeqCall.mainTrigger ∉ (execute_sequence
      ⟨.ok "wakeId", .ok "task1", .terminal ⟨"FAILED", none, "step 1"⟩,
       .ok "fid", .ok "mainId", .ok "task2",
       .terminal ⟨"COMPLETE", none, "done"⟩⟩).2 ∧
    SeqCall.mainMonitor ∉ (execute_sequence
      ⟨.ok "wakeId", .ok "task1", .terminal ⟨"FAILED", none, "step 1"⟩,
       .ok "fid", .ok "mainId", .ok "task2",
       .terminal ⟨"COMPLETE", none, "done"⟩⟩).2 :=
  C2_wakeup_abort
    ⟨.ok "wakeId", .ok "task1", .terminal ⟨"FAILED", none, "step 1"⟩,
     .ok "fid", .ok "mainId", .ok "task2",
     .terminal ⟨"COMPLETE", none, "done"⟩⟩
    (Or.inr (Or.inr (Or.inr (Or.inr
      ⟨⟨"FAILED", none, "step 1"⟩, rfl, by decide⟩))))

end Anaplan
